import Mathlib

/-!
Verification development for the LaunchDarkly Guarded Release Runner frontend.

The definitions below are shallow embeddings of the JavaScript source under
`src/frontend/src` (and the unnamed source parts).  JavaScript numbers are
modelled as `Int` or `Rat`, JavaScript objects either as Lean structures
(where the field set is fixed by the source) or as the small `JVal` dynamic value
model (where the source manipulates untyped JSON), and browser `localStorage`
as explicit state threaded through the functions.  Asynchronous network
results (axios resolutions/rejections, environment-key lookups) are inputs to
the embedded functions, so every embedded operation is a pure function of its
inputs.
-/

namespace GRRunner

/-! ## JavaScript-flavoured parsing helpers

`parseFloatModel` embeds the JavaScript `parseFloat` applied to the strings
this application feeds it (decimal literals, optionally signed, longest
numeric prefix; `none` models `NaN`).  Exponent notation is not used by the
sources and is not modelled.  `parseIntModel` likewise embeds `parseInt(s, 10)`.
-/

def digitsToNat (ds : List Char) : Nat :=
  ds.foldl (fun acc c => 10 * acc + (c.toNat - 48)) 0

def parseFloatModel (s : String) : Option Rat :=
  let cs := s.data.dropWhile Char.isWhitespace
  let signed : Bool × List Char :=
    match cs with
    | '-' :: rest => (true, rest)
    | '+' :: rest => (false, rest)
    | _ => (false, cs)
  let intPart := signed.2.takeWhile Char.isDigit
  let rest := signed.2.dropWhile Char.isDigit
  let fracPart :=
    match rest with
    | '.' :: r => r.takeWhile Char.isDigit
    | _ => []
  if intPart.isEmpty && fracPart.isEmpty then none
  else
    let q : Rat := (digitsToNat intPart : Rat) +
      (digitsToNat fracPart : Rat) / ((10 : Rat) ^ fracPart.length)
    some (if signed.1 then -q else q)

def parseIntModel (s : String) : Option Int :=
  let cs := s.data.dropWhile Char.isWhitespace
  let signed : Bool × List Char :=
    match cs with
    | '-' :: rest => (true, rest)
    | '+' :: rest => (false, rest)
    | _ => (false, cs)
  let digits := signed.2.takeWhile Char.isDigit
  if digits.isEmpty then none
  else some (if signed.1 then -(digitsToNat digits : Int) else (digitsToNat digits : Int))

/-- Splitting a character list on commas, embedding `s.split(',')`. -/
def splitOnComma : List Char → List Char → List (List Char)
  | [], acc => [acc.reverse]
  | c :: rest, acc =>
      if c = ',' then acc.reverse :: splitOnComma rest []
      else splitOnComma rest (c :: acc)

/-! ## The configuration form (src/frontend/src/components/ConfigForm.js)

`LDConfig` models the form's configuration object.  Fields that the source
allows to be either raw strings (from text inputs or stale storage) or already
processed values are modelled with small sum types mirroring the `typeof`
dispatch in `handleSaveOnly`.
-/

/-- Model of a JavaScript value that is either a number or a string (used for
`evaluations_per_second`, which the form keeps as a string until save). -/
inductive NumOrStr where
  | num (q : Rat)
  | str (s : String)
deriving Repr, DecidableEq

/-- Model of a latency range field: a comma-separated string, an array of
integers, or something else (the `!Array.isArray` branch). -/
inductive RangeVal where
  | str (s : String)
  | arr (l : List Int)
  | other
deriving Repr, DecidableEq

/-- Model of a percentage field that may still be a string. -/
inductive IntOrStr where
  | num (n : Int)
  | str (s : String)
deriving Repr, DecidableEq

/-- Model of a toggle value as handled by the boolean-normalisation loop in
`handleSaveOnly` (`=== false`, `=== 'false'`, `=== 0`, otherwise truthy). -/
inductive BoolLike where
  | bool (b : Bool)
  | str (s : String)
  | num (n : Int)
deriving Repr, DecidableEq

structure LDConfig where
  sdk_key : String
  api_key : String
  project_key : String
  flag_key : String
  environment_key : String
  latency_metric_1 : String
  error_metric_1 : String
  business_metric_1 : String
  latency_metric_1_false_range : RangeVal
  latency_metric_1_true_range : RangeVal
  error_metric_1_false_converted : IntOrStr
  error_metric_1_true_converted : IntOrStr
  business_metric_1_false_converted : IntOrStr
  business_metric_1_true_converted : IntOrStr
  error_metric_enabled : BoolLike
  latency_metric_enabled : BoolLike
  business_metric_enabled : BoolLike
  evaluations_per_second : NumOrStr
deriving Repr, DecidableEq

/-- Validation used by `handleSaveOnly` (ConfigForm.js lines 252-260): all four
credential fields must be truthy (non-empty) strings. -/
def validConfig (c : LDConfig) : Bool :=
  !(c.sdk_key == "") && !(c.api_key == "") && !(c.project_key == "") && !(c.flag_key == "")

/-- Range processing in `handleSaveOnly`: a string is split on commas, each part
run through `parseInt`, `NaN`s filtered out; exactly two valid values are kept,
otherwise the defaults apply; a non-array non-string also gets the defaults.
`isFalseRange` selects between the `[50, 125]` and `[52, 131]` defaults. -/
def processRange (isFalseRange : Bool) : RangeVal → List Int
  | .str s =>
      let values := (splitOnComma s.data []).map
        (fun v => parseIntModel (String.mk (v.dropWhile Char.isWhitespace)))
      let validValues := values.filterMap id
      if validValues.length = 2 then validValues
      else if isFalseRange then [50, 125] else [52, 131]
  | .arr l => l
  | .other => if isFalseRange then [50, 125] else [52, 131]

/-- Percentage processing in `handleSaveOnly`: strings go through
`parseInt(x, 10) || 0` (so `NaN` and `0` both give `0`). -/
def processConverted : IntOrStr → Int
  | .num n => n
  | .str s =>
      match parseIntModel s with
      | none => 0
      | some n => if n = 0 then 0 else n

/-- Toggle normalisation in `handleSaveOnly`: `false`, `'false'` and `0` map to
`false`, everything else to `true`. -/
def processToggle : BoolLike → Bool
  | .bool b => b
  | .str s => !(s == "false")
  | .num n => !(n == 0)

/-- Evaluations-per-second processing in `handleSaveOnly` (ConfigForm.js lines
309-318): a string goes through `parseFloat(x) || 20.0` (so `NaN` and `0` both
give `20.0`), then the value is clamped below at `0.1` and above at `100`. -/
def processEps : NumOrStr → Rat
  | .num q => if q < 1/10 then 1/10 else if q > 100 then 100 else q
  | .str s =>
      let parsed : Rat :=
        match parseFloatModel s with
        | none => 20
        | some q => if q = 0 then 20 else q
      if parsed < 1/10 then 1/10 else if parsed > 100 then 100 else parsed

/-- The `submissionConfig` produced by `handleSaveOnly` from the form state.
The credential and metric-name strings are copied verbatim. -/
def processConfig (c : LDConfig) : LDConfig :=
  { c with
    latency_metric_1_false_range := .arr (processRange true c.latency_metric_1_false_range)
    latency_metric_1_true_range := .arr (processRange false c.latency_metric_1_true_range)
    error_metric_1_false_converted := .num (processConverted c.error_metric_1_false_converted)
    error_metric_1_true_converted := .num (processConverted c.error_metric_1_true_converted)
    business_metric_1_false_converted := .num (processConverted c.business_metric_1_false_converted)
    business_metric_1_true_converted := .num (processConverted c.business_metric_1_true_converted)
    error_metric_enabled := .bool (processToggle c.error_metric_enabled)
    latency_metric_enabled := .bool (processToggle c.latency_metric_enabled)
    business_metric_enabled := .bool (processToggle c.business_metric_enabled)
    evaluations_per_second := .num (processEps c.evaluations_per_second) }

/-- Model of `updateEnvironmentKey` (launchDarklyApi, unnamed part_001 lines
161-221) restricted to its effect on `localStorage`: `envKey` is the network
result of `getEnvironmentKey`.  When no config is stored it creates one holding
only the SDK key and environment key (other fields default to empty/zero). -/
def defaultStoredConfig : LDConfig :=
  { sdk_key := "", api_key := "", project_key := "", flag_key := ""
    environment_key := ""
    latency_metric_1 := "", error_metric_1 := "", business_metric_1 := ""
    latency_metric_1_false_range := .other, latency_metric_1_true_range := .other
    error_metric_1_false_converted := .num 0, error_metric_1_true_converted := .num 0
    business_metric_1_false_converted := .num 0, business_metric_1_true_converted := .num 0
    error_metric_enabled := .bool true, latency_metric_enabled := .bool true
    business_metric_enabled := .bool true
    evaluations_per_second := .num 20 }

def updateEnvironmentKey (c : LDConfig) (storage : Option LDConfig)
    (envKey : Option String) : Option LDConfig :=
  if c.sdk_key == "" || c.api_key == "" || c.project_key == "" then storage
  else
    match envKey with
    | none => storage
    | some k =>
        match storage with
        | some st =>
            if st.sdk_key == c.sdk_key then some { st with environment_key := k }
            else some st
        | none => some { defaultStoredConfig with sdk_key := c.sdk_key, environment_key := k }

/-- Result of `handleSaveOnly`: the `localStorage` entry `ldConfig` after the
call, and the `error`/`success` UI state it sets. -/
structure SaveResult where
  stored : Option LDConfig
  errorMsg : Option String
  successMsg : Option String
deriving Repr, DecidableEq

/-- Model of `handleSaveOnly` (ConfigForm.js lines 246-375).  `storage` is the
`ldConfig` entry before the call and `envKey` the abstracted network result of
`updateEnvironmentKey`.  On validation failure the function sets the error and
returns without touching storage; otherwise it processes the config, lets
`updateEnvironmentKey` update storage, and then overwrites storage with the
processed `submissionConfig` (line 358). -/
def handleSaveOnly (c : LDConfig) (storage : Option LDConfig)
    (envKey : Option String) : SaveResult :=
  if !(validConfig c) then
    { stored := storage
      errorMsg := some "Please fill out all required fields!"
      successMsg := none }
  else
    let sub := processConfig c
    let storage1 :=
      if !(sub.sdk_key == "") && !(sub.api_key == "") && !(sub.project_key == "") then
        updateEnvironmentKey sub storage envKey
      else storage
    let _ := storage1
    { stored := some sub
      errorMsg := none
      successMsg := some "Configuration saved successfully!" }

/-- Result of `handleSubmit`: the storage state afterwards, the UI state, and
the configuration posted to `/simulation/start` (if any). -/
structure SubmitResult where
  stored : Option LDConfig
  errorMsg : Option String
  successMsg : Option String
  startRequest : Option LDConfig
deriving Repr, DecidableEq

/-- Model of `handleSubmit` (ConfigForm.js lines 379-401): first `await
handleSaveOnly()`; then read `localStorage.getItem("ldConfig")` and, if a saved
config exists, start the simulation with it.  Note that `handleSaveOnly` does
not throw on validation failure (it sets the error state and returns), so
`handleSubmit` always proceeds to the storage read. -/
def handleSubmit (c : LDConfig) (storage : Option LDConfig)
    (envKey : Option String) : SubmitResult :=
  let sv := handleSaveOnly c storage envKey
  match sv.stored with
  | some saved =>
      { stored := sv.stored
        errorMsg := sv.errorMsg
        successMsg := some "Configuration saved and simulation started!"
        startRequest := some saved }
  | none =>
      { stored := sv.stored
        errorMsg := sv.errorMsg
        successMsg := sv.successMsg
        startRequest := none }

/-! ## Concrete configurations used by counterexamples and witnesses -/

def exampleValidConfig : LDConfig :=
  { defaultStoredConfig with
    sdk_key := "sdk-11", api_key := "api-22"
    project_key := "default", flag_key := "test-flag" }

def exampleInvalidConfig : LDConfig :=
  { exampleValidConfig with sdk_key := "" }

def exampleSecretConfig : LDConfig :=
  { exampleValidConfig with sdk_key := "sdk-secret-123", api_key := "api-secret-456" }

/-! ## The App log ring (unnamed part_003) and LogExplorer (LogExplorer.js) -/

structure ClientLogEntry where
  timestamp : String
  message : String
deriving Repr, DecidableEq

/-- The status snapshot pushed by the server and kept in the App state; the
fields used by the components modelled here. -/
structure SimStatus where
  running : Bool
  events_sent : Int
  last_error : Option String
  total_logs_generated : Int
  max_logs : Int
deriving Repr, DecidableEq

structure AppState where
  status : SimStatus
  logs : List ClientLogEntry
deriving Repr, DecidableEq

/-- Messages delivered by the live channel (`onMessage`, unnamed part_003
lines 16-25).  The timestamp of a log message is the arrival time the handler
computes from `new Date()`, modelled as part of the event. -/
inductive WsMessage where
  | statusMsg (data : SimStatus)
  | logMsg (timestamp : String) (message : String)
  | otherMsg
deriving Repr, DecidableEq

/-- The `onMessage` handler of App (unnamed part_003 lines 16-25): a status
message replaces the status; a log message prepends a new entry to the first
499 retained entries (`[entry, ...prevLogs.slice(0, 499)]`). -/
def onMessage (st : AppState) : WsMessage → AppState
  | .statusMsg d => { st with status := d }
  | .logMsg ts m => { st with logs := ⟨ts, m⟩ :: st.logs.take 499 }
  | .otherMsg => st

def runMessages (st : AppState) (msgs : List WsMessage) : AppState :=
  msgs.foldl onMessage st

/-- The limit-reached chip condition of LogExplorer (LogExplorer.js line 169):
`simulationStatus.total_logs_generated > simulationStatus.max_logs`. -/
def logLimitReached (s : SimStatus) : Bool :=
  s.max_logs < s.total_logs_generated

/-- Modelled from the spec: the backend Session and Aggregation Store's log
ring is not under `src/` (only the frontend is); per the spec, `recordError`
appends to the logs as a "bounded ring, evicting oldest past the cap, while
`total_logs_generated` keeps counting unboundedly". -/
structure ServerLogStore where
  entries : List ClientLogEntry
  total_logs_generated : Nat
  max_logs : Nat
deriving Repr, DecidableEq

/-- Modelled from the spec: appending one log line to the backend store —
the new entry goes to the back, entries beyond `max_logs` are evicted from
the front (oldest first), and `total_logs_generated` always increments. -/
def serverAppendLog (st : ServerLogStore) (e : ClientLogEntry) : ServerLogStore :=
  let es := st.entries ++ [e]
  { st with
    entries := if st.max_logs < es.length then es.drop (es.length - st.max_logs) else es
    total_logs_generated := st.total_logs_generated + 1 }

/-! ## Session management (simulationApi.js) and the live-channel URL
(useWebSocket.js) -/

/-- Model of `getSessionId` (simulationApi.js lines 102-125).  `stored` is the
`simulation_session_id` entry of `localStorage`; `serverResp` the network
result of `GET /session` (`.error` is the catch path); `now`/`rand` feed the
client-generated fallback id.  Returns the session id and the storage entry
after the call. -/
def getSessionId (stored : Option String) (serverResp : Except Unit String)
    (now : Nat) (rand : String) : String × Option String :=
  match stored with
  | some sid => (sid, some sid)
  | none =>
      match serverResp with
      | .ok sid => (sid, some sid)
      | .error _ =>
          let sid := "client-" ++ toString now ++ "-" ++ rand
          (sid, some sid)

/-- The browser environment read by `getWsUrl` (useWebSocket.js lines
134-186): whether the hostname includes `railway.app`, the runtime and
build-time `REACT_APP_WS_URL` values (empty string when unset, mirroring
JavaScript truthiness), and whether the page protocol is `https:`. -/
structure WsEnv where
  onRailway : Bool
  runtimeWsUrl : String
  buildWsUrl : String
  isHttps : Bool
deriving Repr, DecidableEq

/-- The base URL selection of `getWsUrl` before the session id is appended
(useWebSocket.js lines 140-180). -/
def wsBaseUrl (e : WsEnv) : String :=
  if e.onRailway then "wss://ld-gr-backend-production.up.railway.app/ws"
  else if !(e.runtimeWsUrl == "") then
    if !(e.runtimeWsUrl.startsWith "ws://") && !(e.runtimeWsUrl.startsWith "wss://") then
      if e.isHttps then "wss://" ++ e.runtimeWsUrl else "ws://" ++ e.runtimeWsUrl
    else e.runtimeWsUrl
  else if !(e.buildWsUrl == "") then
    if !(e.buildWsUrl.startsWith "ws://") && !(e.buildWsUrl.startsWith "wss://") then
      if e.isHttps then "wss://" ++ e.buildWsUrl else "ws://" ++ e.buildWsUrl
    else e.buildWsUrl
  else if e.isHttps then "wss://localhost:8000/ws" else "ws://localhost:8000/ws"

/-- Model of `getWsUrl` (useWebSocket.js lines 134-186): awaits
`getSessionId()` and returns `baseUrl + "/" + sessionId`, together with the
storage entry after the call. -/
def getWsUrl (e : WsEnv) (stored : Option String) (serverResp : Except Unit String)
    (now : Nat) (rand : String) : String × Option String :=
  let r := getSessionId stored serverResp now rand
  (wsBaseUrl e ++ "/" ++ r.1, r.2)

/-! ## Controller requests (simulationApi.js lines 128-188) and the log page
consumer (LogExplorer.js lines 41-60) -/

/-- Body shapes of the controller requests: `startSimulation` posts the whole
config with `session_id` added (`config.session_id = sessionId`), and
`stopSimulation` posts an object holding only `session_id`. -/
inductive RequestBody where
  | configWithSession (config : LDConfig) (session_id : String)
  | sessionOnly (session_id : String)
deriving Repr, DecidableEq

structure ApiRequest where
  method : String
  path : String
  body : Option RequestBody
deriving Repr, DecidableEq

/-- Model of `startSimulation` (simulationApi.js lines 128-143): get the
session id, add it to the config, POST to `/simulation/start`. -/
def startSimulation (c : LDConfig) (stored : Option String)
    (serverResp : Except Unit String) (now : Nat) (rand : String) :
    ApiRequest × Option String :=
  let r := getSessionId stored serverResp now rand
  ({ method := "POST", path := "/simulation/start"
     body := some (.configWithSession c r.1) }, r.2)

/-- Model of `stopSimulation` (simulationApi.js lines 146-158). -/
def stopSimulation (stored : Option String) (serverResp : Except Unit String)
    (now : Nat) (rand : String) : ApiRequest × Option String :=
  let r := getSessionId stored serverResp now rand
  ({ method := "POST", path := "/simulation/stop"
     body := some (.sessionOnly r.1) }, r.2)

/-- Model of `getStatus` (simulationApi.js lines 161-173). -/
def getStatus (stored : Option String) (serverResp : Except Unit String)
    (now : Nat) (rand : String) : ApiRequest × Option String :=
  let r := getSessionId stored serverResp now rand
  ({ method := "GET", path := "/simulation/status?session_id=" ++ r.1
     body := none }, r.2)

/-- Model of `getLogs` (simulationApi.js lines 176-188). -/
def getLogs (limit skip : Nat) (stored : Option String)
    (serverResp : Except Unit String) (now : Nat) (rand : String) :
    ApiRequest × Option String :=
  let r := getSessionId stored serverResp now rand
  ({ method := "GET"
     path := "/simulation/logs?session_id=" ++ r.1 ++ "&limit=" ++ toString limit
       ++ "&skip=" ++ toString skip
     body := none }, r.2)

/-- One server log record as consumed by LogExplorer. -/
structure LogRecord where
  timestamp : Int
  formatted_time : String
  message : String
  user_key : Option String
deriving Repr, DecidableEq

/-- The logs page returned by `GET /simulation/logs` as consumed by
`fetchLogs`. -/
structure LogsPage where
  logs : List LogRecord
  total_count : Int
  has_more : Bool
deriving Repr, DecidableEq

structure ExplorerState where
  logs : List LogRecord
  totalCount : Int
  hasMore : Bool
deriving Repr, DecidableEq

/-- LogExplorer.js line 35: `logsPerPage = 100`. -/
def logsPerPage : Nat := 100

/-- The request side of `fetchLogs` (LogExplorer.js lines 41-60):
`skip = (currentPage - 1) * logsPerPage; getLogs(logsPerPage, skip)`. -/
def fetchLogsRequest (currentPage : Nat) (stored : Option String)
    (serverResp : Except Unit String) (now : Nat) (rand : String) :
    ApiRequest × Option String :=
  getLogs logsPerPage ((currentPage - 1) * logsPerPage) stored serverResp now rand

/-- The response side of `fetchLogs`: `setLogs(response.logs)`,
`setTotalCount(response.total_count)`, `setHasMore(response.has_more)`. -/
def applyLogsResponse (resp : LogsPage) (st : ExplorerState) : ExplorerState :=
  { st with logs := resp.logs, totalCount := resp.total_count, hasMore := resp.has_more }

/-! ## The live-channel ping loop and sendMessage (useWebSocket.js) -/

/-- WebSocket ready states; `wsOpen` is `WebSocket.OPEN`. -/
inductive ReadyState where
  | connecting
  | wsOpen
  | closing
  | closed
deriving Repr, DecidableEq

/-- Frames sent on the live channel; `ping` is the serialised object with a
`type` field holding `'ping'`. -/
inductive Frame where
  | ping
  | other (s : String)
deriving Repr, DecidableEq

/-- State of one connection's ping loop: the socket's ready state and whether
the 30-second interval installed by `onopen` is still active. -/
structure PingLoopState where
  readyState : ReadyState
  pingIntervalActive : Bool
deriving Repr, DecidableEq

/-- The `setInterval` delay used for pings (useWebSocket.js line 231). -/
def pingIntervalDelayMs : Nat := 30000

/-- Events acting on the ping loop: `onOpen` fires the `onopen` handler, which
installs the interval; `intervalTick` is one execution point of the interval
(a cleared interval does not run its callback); `transportState` models the
socket's ready state changing under the handlers; `onClose` fires the
`onclose` handler, which clears the interval. -/
inductive PingEvent where
  | onOpen
  | intervalTick
  | transportState (r : ReadyState)
  | onClose
deriving Repr, DecidableEq

/-- One step of the ping loop (useWebSocket.js lines 222-251): the interval
callback sends the ping frame only under the guard
`ws && ws.readyState === WebSocket.OPEN`. -/
def pingStep (st : PingLoopState) : PingEvent → PingLoopState × Option Frame
  | .onOpen => ({ readyState := .wsOpen, pingIntervalActive := true }, none)
  | .intervalTick =>
      if st.pingIntervalActive then
        if st.readyState = .wsOpen then (st, some .ping) else (st, none)
      else (st, none)
  | .transportState r => ({ st with readyState := r }, none)
  | .onClose => ({ readyState := .closed, pingIntervalActive := false }, none)

/-- Running the ping loop over a sequence of events, collecting the frames
sent. -/
def runPing (st : PingLoopState) : List PingEvent → PingLoopState × List Frame
  | [] => (st, [])
  | ev :: evs =>
      let r := pingStep st ev
      let rest := runPing r.1 evs
      (rest.1, r.2.toList ++ rest.2)

/-- Model of the socket as seen by `sendMessage`. -/
structure WsSocket where
  readyState : ReadyState
deriving Repr, DecidableEq

/-- Model of `sendMessage` (useWebSocket.js lines 301-305): the frame is sent
only when the socket exists and its ready state is `OPEN`; otherwise nothing
is sent. -/
def sendMessage (socket : Option WsSocket) (data : Frame) : Option Frame :=
  match socket with
  | some s => if s.readyState = .wsOpen then some data else none
  | none => none

/-! ## Dynamic JSON values and the proxy helper (launchDarklyApi.js)

`makeProxyRequest` and `attachMetricsToFlag` manipulate untyped JSON, so they
are embedded over a small dynamic value model.  `Except String JVal` is the
result of an `async` function: `.ok` a resolved value, `.error` a thrown
(uncaught) exception carrying the JavaScript error message.
-/

inductive JVal where
  | jundefined
  | jnull
  | jbool (b : Bool)
  | jnum (n : Int)
  | jstr (s : String)
  | jarr (elems : List JVal)
  | jobj (fields : List (String × JVal))

/-- First-match field lookup in an object's field list. -/
def jlookup : List (String × JVal) → String → Option JVal
  | [], _ => none
  | (k, v) :: rest, key => if k = key then some v else jlookup rest key

/-- Property access `v.k`: throws a `TypeError` on `null`/`undefined`, returns
the field (or `undefined`) on objects, and `undefined` on other values
(built-in properties, which the embedded code never reads, are ignored). -/
def jget : JVal → String → Except String JVal
  | .jundefined, k => .error ("TypeError: cannot read properties of undefined (reading " ++ k ++ ")")
  | .jnull, k => .error ("TypeError: cannot read properties of null (reading " ++ k ++ ")")
  | .jobj fs, k => .ok ((jlookup fs k).getD .jundefined)
  | _, _ => .ok .jundefined

/-- Optional chaining `v?.k`: `undefined` when the receiver is nullish, never
throws. -/
def jgetOpt : JVal → String → JVal
  | .jundefined, _ => .jundefined
  | .jnull, _ => .jundefined
  | .jobj fs, k => (jlookup fs k).getD .jundefined
  | _, _ => .jundefined

/-- JavaScript truthiness.  `NaN` does not arise in the embedded code paths. -/
def truthy : JVal → Bool
  | .jundefined => false
  | .jnull => false
  | .jbool b => b
  | .jnum n => !(n == 0)
  | .jstr s => !(s == "")
  | .jarr _ => true
  | .jobj _ => true

/-- String coercion for template literals.  The embedded code only
interpolates status codes and message values; arrays are not interpolated by
the source, so their join is not modelled. -/
def jsToString : JVal → String
  | .jundefined => "undefined"
  | .jnull => "null"
  | .jbool b => if b then "true" else "false"
  | .jnum n => toString n
  | .jstr s => s
  | .jarr _ => ""
  | .jobj _ => "[object Object]"

/-- Numeric coercion used by the relational comparisons `>= 200` / `< 300`.
Strings must be a fully numeric (optionally signed) integer literal after
trimming; fractional status codes are not modelled, `undefined`, objects and
non-numeric strings coerce to `NaN` (`none`), on which every relational
comparison is false. -/
def toNumber : JVal → Option Int
  | .jnum n => some n
  | .jbool b => some (if b then 1 else 0)
  | .jnull => some 0
  | .jstr s =>
      let cs := ((s.data.dropWhile Char.isWhitespace).reverse.dropWhile
        Char.isWhitespace).reverse
      if cs.isEmpty then some 0
      else
        match cs with
        | '-' :: ds =>
            if !ds.isEmpty && ds.all Char.isDigit then some (-(digitsToNat ds : Int)) else none
        | '+' :: ds =>
            if !ds.isEmpty && ds.all Char.isDigit then some (digitsToNat ds : Int) else none
        | ds => if ds.all Char.isDigit then some (digitsToNat ds : Int) else none
  | _ => none

/-- `v >= k` for an integer literal `k`. -/
def jsGE (v : JVal) (k : Int) : Bool :=
  match toNumber v with
  | some n => k ≤ n
  | none => false

/-- `v < k` for an integer literal `k`. -/
def jsLT (v : JVal) (k : Int) : Bool :=
  match toNumber v with
  | some n => n < k
  | none => false

/-- Strict equality `v === k` against an integer literal. -/
def jeqNum (v : JVal) (k : Int) : Bool :=
  match v with
  | .jnum n => n == k
  | _ => false

/-- Substring test on character lists (used by `String.prototype.includes`). -/
def hasSub : List Char → List Char → Bool
  | [], needle => needle.isEmpty
  | c :: rest, needle => needle.isPrefixOf (c :: rest) || hasSub rest needle

/-- `v.includes(sub)`: defined on strings (substring test) and arrays
(membership by strict equality, relevant only for string elements here);
throws a `TypeError` on other receivers. -/
def jsIncludes (v : JVal) (sub : String) : Except String Bool :=
  match v with
  | .jstr s => .ok (hasSub s.data sub.data)
  | .jarr es => .ok (es.any (fun e => match e with | .jstr s => s == sub | _ => false))
  | _ => .error "TypeError: includes is not a function"

/-- Own enumerable string-keyed properties contributed by an object spread
`...v`: objects contribute their fields; nullish values and primitives
contribute none (a string would contribute numeric index keys, which the
embedded code never reads). -/
def spreadFields : JVal → List (String × JVal)
  | .jobj fs => fs
  | _ => []

/-- Setting field `k` in a field list (an object literal entry after a spread
overrides a spread field of the same name). -/
def setField (fs : List (String × JVal)) (k : String) (v : JVal) : List (String × JVal) :=
  if (jlookup fs k).isSome then fs.map (fun p => if p.1 = k then (k, v) else p)
  else fs ++ [(k, v)]

/-- Does an object value carry field `k`? -/
def hasField (v : JVal) (k : String) : Bool :=
  match v with
  | .jobj fs => (jlookup fs k).isSome
  | _ => false

/-- The rejection produced by the axios `post`: a server error response
(carrying the HTTP status and parsed body), a request with no response, or a
request-setup error. -/
inductive AxiosFailure where
  | response (status : Int) (data : JVal)
  | request
  | setup (message : String)

/-- Outcome of `api.post('/ld-api-proxy/proxy', ...)`: `.ok d` is a resolved
response whose `response.data` is `d` (the proxy's envelope with
`success`/`status_code`/`data` fields), `.failure` a rejection. -/
inductive AxiosOutcome where
  | ok (respData : JVal)
  | failure (e : AxiosFailure)

/-- The try-block body of `makeProxyRequest` (launchDarklyApi.js lines 57-87)
after the axios call resolved with envelope `d`.  A `.error` result is a
`TypeError` thrown while reading a property of a nullish envelope (it is
caught by the surrounding catch). -/
def proxyTryBody (d : JVal) : Except String JVal :=
  match jget d "status_code" with
  | .error m => .error m
  | .ok sc =>
      if jsGE sc 200 && jsLT sc 300 then
        match jget d "data" with
        | .error m => .error m
        | .ok dd =>
            .ok (.jobj (setField (setField (spreadFields dd) "status_code" sc)
              "success" (.jbool true)))
      else
        match jget d "success" with
        | .error m => .error m
        | .ok succ =>
            if !(truthy succ) then
              match jget d "data" with
              | .error m => .error m
              | .ok dd =>
                  let msgv := jgetOpt dd "message"
                  let msgStr := if truthy msgv then jsToString msgv else "Unknown error"
                  .ok (.jobj [("error",
                        .jstr ("API Error: " ++ jsToString sc ++ " - " ++ msgStr)),
                      ("status_code", sc), ("data", dd), ("raw_response", d)])
            else
              jget d "data"

/-- The catch block of `makeProxyRequest` (launchDarklyApi.js lines 88-106).
Note `const data = error.response.data; errorMessage = data.detail || ...`
reads a property of the response body, which throws (uncaught, rejecting the
promise) when the body is `null`.  The `||` chain keeps the first truthy
value itself as the error message. -/
def proxyCatch : AxiosFailure → Except String JVal
  | .response status data =>
      match jget data "detail" with
      | .error m => .error m
      | .ok detail =>
          match jget data "message" with
          | .error m => .error m
          | .ok msg =>
              .ok (.jobj [("error",
                if truthy detail then detail
                else if truthy msg then msg
                else .jstr ("API Error: " ++ toString status))])
  | .request =>
      .ok (.jobj [("error",
        .jstr "No response received from server. Please check your network connection.")])
  | .setup m => .ok (.jobj [("error", .jstr m)])

/-- Model of `makeProxyRequest` (launchDarklyApi.js lines 57-107).  A
`TypeError` thrown inside the try block is caught; such an error has neither
`.response` nor `.request`, so the final else branch returns its message. -/
def makeProxyRequest : AxiosOutcome → Except String JVal
  | .ok d =>
      match proxyTryBody d with
      | .ok v => .ok v
      | .error m => .ok (.jobj [("error", .jstr m)])
  | .failure e => proxyCatch e

/-- The response handling of `attachMetricsToFlag` (launchDarklyApi.js lines
303-365) applied to the value returned by `makeProxyRequest`.  The four
sequential early-return checks are translated as a chain; the only operation
that can throw here is `.includes` on a non-string `error` value. -/
def attachResponseHandling (metricKeys : List String) (response : JVal) :
    Except String JVal :=
  if truthy response && truthy (jgetOpt response "raw_response")
      && jeqNum (jgetOpt (jgetOpt response "raw_response") "status_code") 200 then
    .ok (.jobj [("success", .jbool true),
                ("message", .jstr "Metrics successfully attached to flag"),
                ("metricKeys", .jarr (metricKeys.map .jstr)),
                ("data", jgetOpt (jgetOpt response "raw_response") "data")])
  else if truthy response && !(truthy (jgetOpt response "error")) then
    .ok (.jobj [("success", .jbool true),
                ("message", .jstr "Metrics attached to flag successfully!"),
                ("metricKeys", .jarr (metricKeys.map .jstr)),
                ("data", response)])
  else if truthy response && jeqNum (jgetOpt response "status_code") 409 then
    .ok (.jobj [("success", .jbool true),
                ("message", .jstr "Metrics are already attached to this flag"),
                ("metricKeys", .jarr (metricKeys.map .jstr)),
                ("data", jgetOpt response "data")])
  else if truthy response && truthy (jgetOpt response "error") then
    match jsIncludes (jgetOpt response "error") "200" with
    | .error m => .error m
    | .ok inc =>
        if inc || jeqNum (jgetOpt response "status_code") 200
            || (truthy (jgetOpt response "raw_response")
                && jeqNum (jgetOpt (jgetOpt response "raw_response") "status_code") 200) then
          .ok (.jobj [("success", .jbool true),
                      ("message",
                        .jstr "Metrics successfully attached (or already attached) to flag"),
                      ("metricKeys", .jarr (metricKeys.map .jstr)),
                      ("data", if truthy (jgetOpt response "data") then jgetOpt response "data"
                               else jgetOpt (jgetOpt response "raw_response") "data")])
        else
          .ok response
  else
    .ok response

/-- Model of `attachMetricsToFlag` (launchDarklyApi.js lines 303-365): the
proxy request for the measured-rollout PUT followed by the response
handling. -/
def attachMetricsToFlag (metricKeys : List String) (outcome : AxiosOutcome) :
    Except String JVal :=
  match makeProxyRequest outcome with
  | .error m => .error m
  | .ok response => attachResponseHandling metricKeys response

/-- Concrete proxy envelope used by the C2 counterexample: a 2xx status whose
inner data object itself carries an `error` field. -/
def c2Envelope : JVal :=
  .jobj [("status_code", .jnum 200), ("success", .jbool false),
         ("data", .jobj [("error", .jstr "boom")])]

/-- Concrete proxy envelope used by the C2 witness: a 409 whose envelope
reports failure. -/
def c2Envelope409 : JVal :=
  .jobj [("status_code", .jnum 409), ("success", .jbool false), ("data", .jnull)]

/-! ## Claim C1 -/

/-- Claim C1 counterexample: with the SDK key empty but a previously saved
configuration present in `localStorage`, `handleSubmit` sets the validation
error yet still issues a start request (with the stale stored configuration),
because `handleSaveOnly` returns normally after setting the error and
`handleSubmit` then reads and submits whatever `localStorage` holds. -/
theorem C1_counterexample :
    validConfig exampleInvalidConfig = false ∧
    (handleSubmit exampleInvalidConfig (some exampleValidConfig) none).errorMsg =
      some "Please fill out all required fields!" ∧
    (handleSubmit exampleInvalidConfig (some exampleValidConfig) none).startRequest =
      some exampleValidConfig :=
  ⟨rfl, rfl, rfl⟩

/-- Claim C1 (amended): when a required credential field is missing or empty,
`handleSubmit` sets the validation error and leaves storage unchanged, and the
start request it issues is exactly the previously stored configuration (so no
start request is issued precisely when no configuration was saved before). -/
theorem C1_invalid_submit (c : LDConfig) (storage : Option LDConfig)
    (envKey : Option String) (h : validConfig c = false) :
    (handleSubmit c storage envKey).errorMsg =
      some "Please fill out all required fields!" ∧
    (handleSubmit c storage envKey).stored = storage ∧
    (handleSubmit c storage envKey).startRequest = storage := by
  cases storage <;> simp [handleSubmit, handleSaveOnly, h]

/-- Claim C1 witness: a concrete invalid configuration with empty storage gets
the validation error and produces no start request. -/
theorem C1_invalid_submit_witness :
    validConfig exampleInvalidConfig = false ∧
    (handleSubmit exampleInvalidConfig none none).errorMsg =
      some "Please fill out all required fields!" ∧
    (handleSubmit exampleInvalidConfig none none).startRequest = none :=
  ⟨rfl, (C1_invalid_submit exampleInvalidConfig none none rfl).1,
    (C1_invalid_submit exampleInvalidConfig none none rfl).2.2⟩

/-! ## Claim C3 -/

/-- Claim C3 counterexample: the string input `"0"` parses to the value `0`,
which is below the lower bound `0.1`, so the claim says it should be raised to
`0.1`; but `parseFloat("0") || 20.0` evaluates to `20.0` in JavaScript because
`0` is falsy, so the saved value is the default `20`, not `0.1`. -/
theorem C3_counterexample :
    processEps (.str "0") = 20 ∧ (20 : Rat) ≠ 1 / 10 := by
  constructor
  · have h0 : parseFloatModel "0" = some ((digitsToNat ['0'] : Rat) +
        (digitsToNat ([] : List Char) : Rat) / ((10 : Rat) ^ (0 : Nat))) := rfl
    have h1 : digitsToNat ['0'] = 0 := rfl
    have h2 : digitsToNat ([] : List Char) = 0 := rfl
    rw [h1, h2] at h0
    have h3 : parseFloatModel "0" = some 0 := by rw [h0]; norm_num
    simp only [processEps, h3]
    norm_num
  · norm_num

/-- Claim C3 (amended): the saved `evaluations_per_second` always lies in
`[0.1, 100]`; numeric values are clamped into the interval; strings that do not
parse become the default `20.0`, and so do strings that parse to `0` (since
`parseFloat(s) || 20.0` treats a parsed `0` as falsy); other parsed strings are
clamped into the interval. -/
theorem C3_eps_clamped (v : NumOrStr) :
    (1 / 10 ≤ processEps v ∧ processEps v ≤ 100) ∧
    (∀ s, v = .str s → parseFloatModel s = none → processEps v = 20) ∧
    (∀ s, v = .str s → parseFloatModel s = some 0 → processEps v = 20) ∧
    (∀ q, v = .num q → q < 1 / 10 → processEps v = 1 / 10) ∧
    (∀ q, v = .num q → 100 < q → processEps v = 100) ∧
    (∀ q, v = .num q → 1 / 10 ≤ q → q ≤ 100 → processEps v = q) := by
  cases v with
  | num q =>
    refine ⟨?_, ?_, ?_, ?_, ?_, ?_⟩
    · simp only [processEps]
      split_ifs with h1 h2 <;> constructor <;> linarith
    · intro s hs; exact absurd hs (by simp)
    · intro s hs; exact absurd hs (by simp)
    · intro q' hq hlt
      cases hq
      simp only [processEps]
      rw [if_pos hlt]
    · intro q' hq hgt
      cases hq
      simp only [processEps]
      rw [if_neg (by linarith : ¬ q < 1 / 10), if_pos hgt]
    · intro q' hq hle hge
      cases hq
      simp only [processEps]
      rw [if_neg (by linarith : ¬ q < 1 / 10), if_neg (by linarith : ¬ q > 100)]
  | str s =>
    have hparsed : ∀ p : Rat,
        (1 / 10 ≤ (if p < 1 / 10 then (1 : Rat) / 10 else if p > 100 then 100 else p)) ∧
        ((if p < 1 / 10 then (1 : Rat) / 10 else if p > 100 then 100 else p) ≤ 100) := by
      intro p
      split_ifs <;> constructor <;> linarith
    refine ⟨?_, ?_, ?_, ?_, ?_, ?_⟩
    · rcases h : parseFloatModel s with _ | q
      · simpa [processEps, h] using hparsed 20
      · by_cases hz : q = 0
        · simpa [processEps, h, hz] using hparsed 20
        · simpa [processEps, h, hz] using hparsed q
    · intro s' hs hnone
      cases hs
      simp [processEps, hnone]
      norm_num
    · intro s' hs hzero
      cases hs
      simp [processEps, hzero]
      norm_num
    · intro q hq _; exact absurd hq (by simp)
    · intro q hq _; exact absurd hq (by simp)
    · intro q hq _ _; exact absurd hq (by simp)

/-- Claim C3 witness: the unparseable string `"rate"` produces the default
`20`, which lies in the interval. -/
theorem C3_eps_clamped_witness :
    (1 / 10 ≤ processEps (.str "rate") ∧ processEps (.str "rate") ≤ 100) ∧
    processEps (.str "rate") = 20 :=
  ⟨(C3_eps_clamped (.str "rate")).1,
    (C3_eps_clamped (.str "rate")).2.1 "rate" rfl rfl⟩

/-! ## Claim C4 -/

/-- Claim C4 counterexample: saving a valid configuration writes the `ldConfig`
entry of `localStorage` (persistent browser storage) with the SDK and API
credentials copied verbatim, i.e. in cleartext — `localStorage.setItem(
"ldConfig", JSON.stringify(submissionConfig))` at ConfigForm.js line 358. -/
theorem C4_counterexample :
    ((handleSaveOnly exampleSecretConfig none none).stored.map
      (fun p => p.sdk_key)) = some "sdk-secret-123" ∧
    ((handleSaveOnly exampleSecretConfig none none).stored.map
      (fun p => p.api_key)) = some "api-secret-456" :=
  ⟨rfl, rfl⟩

/-- Claim C4 (amended): every successful save writes the processed
configuration to persistent storage, and that processed configuration carries
the SDK and API credentials unchanged (in cleartext); the credentials are
only masked in the form display, never transformed before storage. -/
theorem C4_credentials_stored_cleartext (c : LDConfig) (storage : Option LDConfig)
    (envKey : Option String) (h : validConfig c = true) :
    (handleSaveOnly c storage envKey).stored = some (processConfig c) ∧
    (processConfig c).sdk_key = c.sdk_key ∧
    (processConfig c).api_key = c.api_key := by
  refine ⟨?_, rfl, rfl⟩
  simp [handleSaveOnly, h]

/-- Claim C4 witness: a concrete valid configuration is stored with its
credentials verbatim. -/
theorem C4_credentials_stored_cleartext_witness :
    validConfig exampleSecretConfig = true ∧
    (handleSaveOnly exampleSecretConfig none none).stored =
      some (processConfig exampleSecretConfig) :=
  ⟨rfl, (C4_credentials_stored_cleartext exampleSecretConfig none none rfl).1⟩

/-! ## Helper lemmas -/

theorem strAppendData (a b : String) : (a ++ b).data = a.data ++ b.data := by
  cases a; cases b; rfl

theorem str_append_ne_empty_left (a b : String) (h : a ≠ "") : a ++ b ≠ "" := by
  intro hab
  apply h
  have hd : a.data ++ b.data = [] := by
    have h2 := congrArg String.data hab
    rwa [strAppendData] at h2
  have ha : a.data = [] := (List.append_eq_nil.mp hd).1
  cases a with
  | mk da => cases ha; rfl

theorem str_append_ne_empty_right (a b : String) (h : b ≠ "") : a ++ b ≠ "" := by
  intro hab
  apply h
  have hd : a.data ++ b.data = [] := by
    have h2 := congrArg String.data hab
    rwa [strAppendData] at h2
  have hb : b.data = [] := (List.append_eq_nil.mp hd).2
  cases b with
  | mk db => cases hb; rfl

theorem jlookup_map_set (fs : List (String × JVal)) (k : String) (v : JVal)
    (h : (jlookup fs k).isSome = true) :
    jlookup (fs.map (fun p => if p.1 = k then (k, v) else p)) k = some v := by
  induction fs with
  | nil => simp [jlookup] at h
  | cons p rest ih =>
      obtain ⟨k1, v1⟩ := p
      rw [List.map_cons]
      by_cases hk : k1 = k
      · have hhead : (if ((k1, v1) : String × JVal).1 = k then (k, v) else (k1, v1))
            = (k, v) := by simp [hk]
        rw [hhead]
        simp [jlookup]
      · have hhead : (if ((k1, v1) : String × JVal).1 = k then (k, v) else (k1, v1))
            = (k1, v1) := by simp [hk]
        rw [hhead]
        simp only [jlookup, hk, if_false] at h
        simp [jlookup, hk]
        exact ih h

theorem jlookup_map_set_ne (fs : List (String × JVal)) (k : String) (v : JVal)
    (k' : String) (h : k' ≠ k) :
    jlookup (fs.map (fun p => if p.1 = k then (k, v) else p)) k' = jlookup fs k' := by
  induction fs with
  | nil => rfl
  | cons p rest ih =>
      obtain ⟨k1, v1⟩ := p
      rw [List.map_cons]
      by_cases hk : k1 = k
      · have hhead : (if ((k1, v1) : String × JVal).1 = k then (k, v) else (k1, v1))
            = (k, v) := by simp [hk]
        rw [hhead]
        subst hk
        simp [jlookup, Ne.symm h, ih]
      · have hhead : (if ((k1, v1) : String × JVal).1 = k then (k, v) else (k1, v1))
            = (k1, v1) := by simp [hk]
        rw [hhead]
        by_cases hk' : k1 = k'
        · subst hk'
          simp [jlookup]
        · simp [jlookup, hk', ih]

theorem jlookup_append_of_none (fs : List (String × JVal)) (k : String)
    (h : jlookup fs k = none) (ys : List (String × JVal)) :
    jlookup (fs ++ ys) k = jlookup ys k := by
  induction fs with
  | nil => rfl
  | cons p rest ih =>
      obtain ⟨k1, v1⟩ := p
      by_cases hk : k1 = k
      · simp [jlookup, hk] at h
      · simp only [jlookup, hk, if_false] at h
        simp [jlookup, hk]
        exact ih h

theorem jlookup_append_single_ne (fs : List (String × JVal)) (k : String) (v : JVal)
    (k' : String) (h : k' ≠ k) :
    jlookup (fs ++ [(k, v)]) k' = jlookup fs k' := by
  induction fs with
  | nil => simp [jlookup, Ne.symm h]
  | cons p rest ih =>
      obtain ⟨k1, v1⟩ := p
      by_cases hk' : k1 = k'
      · subst hk'
        simp [jlookup]
      · simp [jlookup, hk', ih]

theorem jlookup_setField_self (fs : List (String × JVal)) (k : String) (v : JVal) :
    jlookup (setField fs k v) k = some v := by
  unfold setField
  by_cases hs : (jlookup fs k).isSome = true
  · simp only [hs, if_true]
    exact jlookup_map_set fs k v hs
  · simp only [hs, Bool.false_eq_true, if_false]
    have hn : jlookup fs k = none := Option.not_isSome_iff_eq_none.mp (by simpa using hs)
    rw [jlookup_append_of_none fs k hn]
    simp [jlookup]

theorem jlookup_setField_ne (fs : List (String × JVal)) (k : String) (v : JVal)
    (k' : String) (h : k' ≠ k) :
    jlookup (setField fs k v) k' = jlookup fs k' := by
  unfold setField
  by_cases hs : (jlookup fs k).isSome = true
  · simp only [hs, if_true]
    exact jlookup_map_set_ne fs k v k' h
  · simp only [hs, Bool.false_eq_true, if_false]
    exact jlookup_append_single_ne fs k v k' h

theorem spread_hasField (v : JVal) (k : String) :
    (jlookup (spreadFields v) k).isSome = hasField v k := by
  cases v <;> rfl

theorem onMessage_logs_le (st : AppState) (msg : WsMessage) (h : st.logs.length ≤ 500) :
    (onMessage st msg).logs.length ≤ 500 := by
  cases msg with
  | statusMsg d => simpa [onMessage] using h
  | logMsg ts m =>
      simp only [onMessage, List.length_cons, List.length_take]
      omega
  | otherMsg => simpa [onMessage] using h

theorem runPing_inactive (evs : List PingEvent) :
    ∀ st : PingLoopState, st.pingIntervalActive = false →
      PingEvent.onOpen ∉ evs → (runPing st evs).2 = [] := by
  induction evs with
  | nil => intro st _ _; rfl
  | cons ev rest ih =>
      intro st h hn
      have hne : ev ≠ .onOpen := fun he => hn (he ▸ List.mem_cons_self _ _)
      have hnr : PingEvent.onOpen ∉ rest := fun hm => hn (List.mem_cons_of_mem _ hm)
      cases ev with
      | onOpen => exact absurd rfl hne
      | intervalTick =>
          simp only [runPing, pingStep, h, Bool.false_eq_true, if_false,
            Option.toList_none, List.nil_append]
          exact ih st h hnr
      | transportState r =>
          simp only [runPing, pingStep, Option.toList_none, List.nil_append]
          exact ih _ (by simpa using h) hnr
      | onClose =>
          simp only [runPing, pingStep, Option.toList_none, List.nil_append]
          exact ih _ rfl hnr

theorem attach_on_409_error (keys : List String) (E : String) (dd : JVal)
    (fs : List (String × JVal)) (hE : E ≠ "")
    (hsc : jlookup fs "status_code" = some (.jnum 409)) :
    attachResponseHandling keys
      (.jobj [("error", .jstr E), ("status_code", .jnum 409), ("data", dd),
              ("raw_response", .jobj fs)]) =
    .ok (.jobj [("success", .jbool true),
                ("message", .jstr "Metrics are already attached to this flag"),
                ("metricKeys", .jarr (keys.map .jstr)),
                ("data", dd)]) := by
  have he5 : jgetOpt (.jobj fs) "status_code" = .jnum 409 := by
    simp [jgetOpt, hsc]
  have hbe : (E == "") = false := beq_eq_false_iff_ne.mpr hE
  have c1 : (truthy (JVal.jobj [("error", .jstr E), ("status_code", .jnum 409), ("data", dd),
        ("raw_response", .jobj fs)])
      && truthy (jgetOpt (JVal.jobj [("error", .jstr E), ("status_code", .jnum 409),
        ("data", dd), ("raw_response", .jobj fs)]) "raw_response")
      && jeqNum (jgetOpt (jgetOpt (JVal.jobj [("error", .jstr E), ("status_code", .jnum 409),
        ("data", dd), ("raw_response", .jobj fs)]) "raw_response") "status_code") 200)
      = false := by
    rw [show jgetOpt (JVal.jobj [("error", .jstr E), ("status_code", .jnum 409), ("data", dd),
      ("raw_response", .jobj fs)]) "raw_response" = .jobj fs from rfl, he5]
    rfl
  have c2 : (truthy (JVal.jobj [("error", .jstr E), ("status_code", .jnum 409), ("data", dd),
        ("raw_response", .jobj fs)])
      && !truthy (jgetOpt (JVal.jobj [("error", .jstr E), ("status_code", .jnum 409),
        ("data", dd), ("raw_response", .jobj fs)]) "error")) = false := by
    rw [show jgetOpt (JVal.jobj [("error", .jstr E), ("status_code", .jnum 409), ("data", dd),
      ("raw_response", .jobj fs)]) "error" = .jstr E from rfl]
    simp [truthy, hbe]
  have c3 : (truthy (JVal.jobj [("error", .jstr E), ("status_code", .jnum 409), ("data", dd),
        ("raw_response", .jobj fs)])
      && jeqNum (jgetOpt (JVal.jobj [("error", .jstr E), ("status_code", .jnum 409),
        ("data", dd), ("raw_response", .jobj fs)]) "status_code") 409) = true := rfl
  unfold attachResponseHandling
  simp only [c1, c2, c3, Bool.false_eq_true, if_false, if_true]
  rfl

/-! ## Claim C5 -/

/-- Claim C5: after every log-message arrival the client log list holds at
most 500 entries; an arrival below the cap evicts nothing, an arrival at the
cap evicts exactly the oldest (last) entry; the LogExplorer limit-reached
condition is `total_logs_generated > max_logs`; and the spec-modelled backend
store keeps its retained entries at or below its cap while
`total_logs_generated` keeps incrementing unboundedly. -/
theorem C5_log_ring_bounded (st : AppState) (msgs : List WsMessage)
    (h : st.logs.length ≤ 500) :
    (runMessages st msgs).logs.length ≤ 500 ∧
    (∀ ts m, st.logs.length ≤ 499 →
      (onMessage st (.logMsg ts m)).logs = ⟨ts, m⟩ :: st.logs) ∧
    (∀ ts m, st.logs.length = 500 →
      (onMessage st (.logMsg ts m)).logs = ⟨ts, m⟩ :: st.logs.dropLast) ∧
    (∀ s : SimStatus, logLimitReached s = true ↔ s.max_logs < s.total_logs_generated) ∧
    (∀ (sst : ServerLogStore) (e : ClientLogEntry),
      sst.entries.length ≤ sst.max_logs →
        (serverAppendLog sst e).entries.length ≤ sst.max_logs ∧
        (serverAppendLog sst e).total_logs_generated = sst.total_logs_generated + 1) := by
  refine ⟨?_, ?_, ?_, ?_, ?_⟩
  · induction msgs generalizing st with
    | nil => exact h
    | cons msg rest ih => exact ih (onMessage st msg) (onMessage_logs_le st msg h)
  · intro ts m hle
    simp [onMessage, List.take_of_length_le hle]
  · intro ts m h500
    have : st.logs.take 499 = st.logs.dropLast := by
      rw [List.dropLast_eq_take, h500]
    simp [onMessage, this]
  · intro s
    simp [logLimitReached]
  · intro sst e hle
    constructor
    · simp only [serverAppendLog, List.length_append, List.length_cons, List.length_nil]
      split_ifs with hgt
      · simp only [List.length_drop, List.length_append, List.length_cons, List.length_nil]
        omega
      · simp only [List.length_append, List.length_cons, List.length_nil] at hgt ⊢
        omega
    · rfl

/-- Claim C5 witness: one log arrival on an empty log list stays within the
cap, and the chip condition holds at a concrete status with
`total_logs_generated = 600 > max_logs = 500`. -/
theorem C5_log_ring_bounded_witness :
    (runMessages ⟨⟨false, 0, none, 0, 500⟩, []⟩
      [.logMsg "12:00:00" "evaluation sent"]).logs.length ≤ 500 ∧
    logLimitReached ⟨true, 600, none, 600, 500⟩ = true :=
  ⟨(C5_log_ring_bounded ⟨⟨false, 0, none, 0, 500⟩, []⟩ _ (by simp)).1,
    ((C5_log_ring_bounded ⟨⟨false, 0, none, 0, 500⟩, []⟩ [] (by simp)).2.2.2.1
      ⟨true, 600, none, 600, 500⟩).mpr (by norm_num)⟩

/-! ## Claim C6 -/

/-- Claim C6: a stored session id is returned unchanged by `getSessionId`
(and storage is untouched); after any first call, every later call returns
the same id and leaves storage unchanged; and the WebSocket URL is the base
URL with `/` and that session id appended, so the session id is a suffix of
the URL. -/
theorem C6_session_stable (stored : Option String) (sid : String) (e : WsEnv)
    (r1 r2 : Except Unit String) (n1 n2 : Nat) (a1 a2 : String)
    (h : stored = some sid) :
    getSessionId stored r1 n1 a1 = (sid, some sid) ∧
    (∀ (st0 : Option String) (r : Except Unit String) (n : Nat) (a : String),
      getSessionId (getSessionId st0 r n a).2 r2 n2 a2 =
        ((getSessionId st0 r n a).1, (getSessionId st0 r n a).2)) ∧
    (getWsUrl e stored r1 n1 a1).1 = wsBaseUrl e ++ "/" ++ sid ∧
    sid.data <:+ (getWsUrl e stored r1 n1 a1).1.data := by
  subst h
  refine ⟨rfl, ?_, rfl, ?_⟩
  · intro st0 r n a
    cases st0 with
    | some s => rfl
    | none => cases r with
      | ok s => rfl
      | error u => rfl
  · exact ⟨(wsBaseUrl e ++ "/").data, (strAppendData (wsBaseUrl e ++ "/") sid).symm⟩

/-- Claim C6 witness: with the id `session-abc` stored, a connection attempt
on the Railway host produces the expected URL ending in the id. -/
theorem C6_session_stable_witness :
    getSessionId (some "session-abc") (.error ()) 7 "zz" =
      ("session-abc", some "session-abc") ∧
    (getWsUrl ⟨true, "", "", true⟩ (some "session-abc") (.error ()) 7 "zz").1 =
      "wss://ld-gr-backend-production.up.railway.app/ws" ++ "/" ++ "session-abc" :=
  ⟨(C6_session_stable (some "session-abc") "session-abc" ⟨true, "", "", true⟩
      (.error ()) (.error ()) 7 7 "zz" "zz" rfl).1,
    (C6_session_stable (some "session-abc") "session-abc" ⟨true, "", "", true⟩
      (.error ()) (.error ()) 7 7 "zz" "zz" rfl).2.2.1⟩

/-! ## Claim C7 -/

/-- Claim C7: each controller call carries the session id in the documented
shape — `start` posts the config with `session_id` added, `stop` posts an
object holding only `session_id`, `status` and `logs` pass it as a query
parameter (`logs` together with `limit` and `skip`), `fetchLogs` requests
pages of 100 with `skip = (page-1)*100`, and the logs response is consumed as
`logs` / `total_count` / `has_more`. -/
theorem C7_request_shapes (c : LDConfig) (stored : Option String) (sid : String)
    (r : Except Unit String) (n : Nat) (a : String) (limit skip page : Nat)
    (resp : LogsPage) (st : ExplorerState) (h : stored = some sid) :
    startSimulation c stored r n a =
      ({ method := "POST", path := "/simulation/start"
         body := some (.configWithSession c sid) }, some sid) ∧
    stopSimulation stored r n a =
      ({ method := "POST", path := "/simulation/stop"
         body := some (.sessionOnly sid) }, some sid) ∧
    getStatus stored r n a =
      ({ method := "GET", path := "/simulation/status?session_id=" ++ sid
         body := none }, some sid) ∧
    getLogs limit skip stored r n a =
      ({ method := "GET"
         path := "/simulation/logs?session_id=" ++ sid ++ "&limit=" ++ toString limit
           ++ "&skip=" ++ toString skip
         body := none }, some sid) ∧
    fetchLogsRequest page stored r n a =
      getLogs 100 ((page - 1) * 100) stored r n a ∧
    applyLogsResponse resp st =
      { logs := resp.logs, totalCount := resp.total_count, hasMore := resp.has_more } := by
  subst h
  exact ⟨rfl, rfl, rfl, rfl, rfl, rfl⟩

/-- Claim C7 witness: the concrete request shapes for session id `s1`,
page 3, and a concrete logs response. -/
theorem C7_request_shapes_witness :
    stopSimulation (some "s1") (.error ()) 0 "" =
      ({ method := "POST", path := "/simulation/stop"
         body := some (.sessionOnly "s1") }, some "s1") ∧
    fetchLogsRequest 3 (some "s1") (.error ()) 0 "" =
      getLogs 100 200 (some "s1") (.error ()) 0 "" :=
  ⟨(C7_request_shapes defaultStoredConfig (some "s1") "s1" (.error ()) 0 "" 100 0 3
      ⟨[], 0, false⟩ ⟨[], 0, false⟩ rfl).2.1,
    (C7_request_shapes defaultStoredConfig (some "s1") "s1" (.error ()) 0 "" 100 0 3
      ⟨[], 0, false⟩ ⟨[], 0, false⟩ rfl).2.2.2.2.1⟩

/-! ## Claim C8 -/

/-- Claim C8: the heartbeat interval constant is 30000 ms; a ping frame is
emitted only by an interval execution while the interval is installed and the
socket's ready state is `OPEN` (and is emitted whenever those hold); and after
the close handler runs (which clears the interval), no event sequence that
does not reopen the connection emits any further frame. -/
theorem C8_ping_loop (st : PingLoopState) (evs : List PingEvent)
    (h : PingEvent.onOpen ∉ evs) :
    pingIntervalDelayMs = 30000 ∧
    (∀ (s : PingLoopState) (ev : PingEvent), (pingStep s ev).2 = some .ping →
      ev = .intervalTick ∧ s.pingIntervalActive = true ∧ s.readyState = .wsOpen) ∧
    (∀ s : PingLoopState, s.pingIntervalActive = true → s.readyState = .wsOpen →
      (pingStep s .intervalTick).2 = some .ping) ∧
    (runPing (pingStep st .onClose).1 evs).2 = [] := by
  refine ⟨rfl, ?_, ?_, ?_⟩
  · intro s ev hp
    cases ev with
    | onOpen => simp [pingStep] at hp
    | intervalTick =>
        by_cases ha : s.pingIntervalActive = true
        · by_cases hr : s.readyState = .wsOpen
          · exact ⟨rfl, ha, hr⟩
          · simp [pingStep, ha, hr] at hp
        · simp [pingStep, ha] at hp
    | transportState r => simp [pingStep] at hp
    | onClose => simp [pingStep] at hp
  · intro s ha hr
    simp [pingStep, ha, hr]
  · exact runPing_inactive evs _ rfl h

/-- Claim C8 witness: after a close, two interval executions (even with the
transport reporting `OPEN` again in between) emit nothing, while an installed
interval on an open socket emits the ping frame. -/
theorem C8_ping_loop_witness :
    (runPing (pingStep ⟨.wsOpen, true⟩ .onClose).1
      [.intervalTick, .transportState .wsOpen, .intervalTick]).2 = [] ∧
    (pingStep ⟨.wsOpen, true⟩ .intervalTick).2 = some .ping :=
  ⟨(C8_ping_loop ⟨.wsOpen, true⟩ [.intervalTick, .transportState .wsOpen, .intervalTick]
      (by decide)).2.2.2,
    (C8_ping_loop ⟨.wsOpen, true⟩ [] (by decide)).2.2.1 ⟨.wsOpen, true⟩ rfl rfl⟩

/-! ## Claim C10 -/

/-- Claim C10: `sendMessage` transmits the frame exactly when the socket
exists and its ready state is `OPEN`; with an absent or non-open socket the
frame is silently dropped. -/
theorem C10_send_guard (socket : Option WsSocket) (data : Frame) :
    (sendMessage socket data = some data ↔
      ∃ s, socket = some s ∧ s.readyState = .wsOpen) ∧
    (∀ s, socket = some s → s.readyState ≠ .wsOpen → sendMessage socket data = none) ∧
    (socket = none → sendMessage socket data = none) := by
  cases socket with
  | none =>
      refine ⟨?_, ?_, fun _ => rfl⟩
      · simp [sendMessage]
      · intro s hs
        exact absurd hs (by simp)
  | some s =>
      by_cases h : s.readyState = .wsOpen
      · refine ⟨?_, ?_, ?_⟩
        · constructor
          · intro _; exact ⟨s, rfl, h⟩
          · intro _; simp [sendMessage, h]
        · intro s' hs' hne
          injection hs' with he
          subst he
          exact absurd h hne
        · intro hn; exact absurd hn (by simp)
      · refine ⟨?_, ?_, ?_⟩
        · constructor
          · intro hsend; simp [sendMessage, h] at hsend
          · rintro ⟨s', hs', hr⟩
            injection hs' with he
            subst he
            exact absurd hr h
        · intro s' hs' _
          injection hs' with he
          subst he
          simp [sendMessage, h]
        · intro hn; exact absurd hn (by simp)

/-- Claim C10 witness: the frame goes out on an open socket, and is dropped on
a closing socket and on an absent socket. -/
theorem C10_send_guard_witness :
    sendMessage (some ⟨.wsOpen⟩) .ping = some .ping ∧
    sendMessage (some ⟨.closing⟩) .ping = none ∧
    sendMessage none .ping = none :=
  ⟨(C10_send_guard (some ⟨.wsOpen⟩) .ping).1.mpr ⟨⟨.wsOpen⟩, rfl, rfl⟩,
    (C10_send_guard (some ⟨.closing⟩) .ping).2.1 ⟨.closing⟩ rfl (by decide),
    (C10_send_guard none .ping).2.2 rfl⟩

/-! ## Claim C9 -/

/-- Claim C9 counterexample: an HTTP error response whose parsed body is
`null` (e.g. a 400 with body `null`) makes the catch block itself throw a
`TypeError` at `data.detail`, so `makeProxyRequest` rejects instead of
returning an object with an `error` field. -/
theorem C9_counterexample :
    makeProxyRequest (.failure (.response 400 .jnull)) =
      .error "TypeError: cannot read properties of null (reading detail)" := rfl

/-- Claim C9 (amended): `makeProxyRequest` resolves (never throws) for every
resolved proxy response, for every request-setup error, for the no-response
case, and for every HTTP error response whose body is not nullish — in the
error cases with an object carrying an `error` field; only a nullish error
body makes it throw. -/
theorem C9_total_error_handling :
    (∀ d : JVal, ∃ r : JVal, makeProxyRequest (.ok d) = .ok r) ∧
    (∀ m : String, makeProxyRequest (.failure (.setup m)) = .ok (.jobj [("error", .jstr m)])) ∧
    makeProxyRequest (.failure .request) =
      .ok (.jobj [("error",
        .jstr "No response received from server. Please check your network connection.")]) ∧
    (∀ (status : Int) (data : JVal), data ≠ .jnull → data ≠ .jundefined →
      ∃ ev : JVal, makeProxyRequest (.failure (.response status data)) =
        .ok (.jobj [("error", ev)])) := by
  refine ⟨?_, fun m => rfl, rfl, ?_⟩
  · intro d
    cases hb : proxyTryBody d with
    | ok v => exact ⟨v, by simp [makeProxyRequest, hb]⟩
    | error m => exact ⟨.jobj [("error", .jstr m)], by simp [makeProxyRequest, hb]⟩
  · intro status data h1 h2
    cases data with
    | jnull => exact absurd rfl h1
    | jundefined => exact absurd rfl h2
    | jbool b => exact ⟨_, rfl⟩
    | jnum n => exact ⟨_, rfl⟩
    | jstr s => exact ⟨_, rfl⟩
    | jarr es => exact ⟨_, rfl⟩
    | jobj gs => exact ⟨_, rfl⟩

/-- Claim C9 witness: a 500 with an empty-object body resolves to an object
with an `error` field. -/
theorem C9_total_error_handling_witness :
    (∃ r : JVal, makeProxyRequest (.ok c2Envelope409) = .ok r) ∧
    (∃ ev : JVal, makeProxyRequest (.failure (.response 500 (.jobj []))) =
      .ok (.jobj [("error", ev)])) :=
  ⟨C9_total_error_handling.1 c2Envelope409,
    C9_total_error_handling.2.2.2 500 (.jobj []) (by simp) (by simp)⟩

/-! ## Claim C2 -/

/-- Claim C2 counterexample: a proxy envelope with `status_code` 200 whose
inner `data` object itself carries an `error` field produces a result that is
marked `success: true` and still carries that `error` field (the spread
`...response.data.data` copies it), refuting "carrying no error field". -/
theorem C2_counterexample :
    makeProxyRequest (.ok c2Envelope) =
      .ok (.jobj [("error", .jstr "boom"), ("status_code", .jnum 200),
                  ("success", .jbool true)]) ∧
    jgetOpt (.jobj [("error", .jstr "boom"), ("status_code", .jnum 200),
                  ("success", .jbool true)]) "error" = .jstr "boom" ∧
    jgetOpt (.jobj [("error", .jstr "boom"), ("status_code", .jnum 200),
                  ("success", .jbool true)]) "success" = .jbool true :=
  ⟨rfl, rfl, rfl⟩

/-- Claim C2 (amended): a proxy envelope with a numeric 2xx `status_code`
always yields a result marked `success: true`, regardless of the envelope's
own `success` flag, and that result carries an `error` field exactly when the
envelope's inner `data` object itself carries one; and a 409 attach envelope
whose own `success` flag is `false` makes `attachMetricsToFlag` return
`success: true` (the already-attached case). -/
theorem C2_proxy_success_shape (fs : List (String × JVal)) (sc : Int)
    (hsc : jlookup fs "status_code" = some (.jnum sc)) :
    (200 ≤ sc → sc < 300 →
      ∃ rf : List (String × JVal),
        makeProxyRequest (.ok (.jobj fs)) = .ok (.jobj rf) ∧
        jlookup rf "success" = some (.jbool true) ∧
        (jlookup rf "error").isSome = hasField (jgetOpt (.jobj fs) "data") "error") ∧
    (sc = 409 → jlookup fs "success" = some (.jbool false) →
      ∀ keys : List String,
        ∃ rf : List (String × JVal),
          attachMetricsToFlag keys (.ok (.jobj fs)) = .ok (.jobj rf) ∧
          jlookup rf "success" = some (.jbool true)) := by
  have hget : jget (.jobj fs) "status_code" = .ok (.jnum sc) := by
    simp [jget, hsc]
  constructor
  · intro h1 h2
    have hbody : proxyTryBody (.jobj fs) =
        .ok (.jobj (setField (setField (spreadFields ((jlookup fs "data").getD .jundefined))
          "status_code" (.jnum sc)) "success" (.jbool true))) := by
      unfold proxyTryBody
      rw [hget]
      simp [jsGE, jsLT, toNumber, h1, h2, jget]
    refine ⟨setField (setField (spreadFields ((jlookup fs "data").getD .jundefined))
      "status_code" (.jnum sc)) "success" (.jbool true), ?_, ?_, ?_⟩
    · simp [makeProxyRequest, hbody]
    · exact jlookup_setField_self _ _ _
    · rw [jlookup_setField_ne _ _ _ _ (by decide), jlookup_setField_ne _ _ _ _ (by decide),
        spread_hasField]
      rfl
  · intro h409 hsucc keys
    subst h409
    have hgets : jget (.jobj fs) "success" = .ok (.jbool false) := by
      simp [jget, hsucc]
    have hbody : proxyTryBody (.jobj fs) =
        .ok (.jobj [("error", .jstr ("API Error: " ++ jsToString (.jnum 409) ++ " - " ++
              (if truthy (jgetOpt ((jlookup fs "data").getD .jundefined) "message")
               then jsToString (jgetOpt ((jlookup fs "data").getD .jundefined) "message")
               else "Unknown error"))),
            ("status_code", .jnum 409), ("data", (jlookup fs "data").getD .jundefined),
            ("raw_response", .jobj fs)]) := by
      unfold proxyTryBody
      rw [hget]
      simp [jsGE, jsLT, toNumber, hsucc, truthy, jget]
    have hmk : makeProxyRequest (.ok (.jobj fs)) =
        .ok (.jobj [("error", .jstr ("API Error: " ++ jsToString (.jnum 409) ++ " - " ++
              (if truthy (jgetOpt ((jlookup fs "data").getD .jundefined) "message")
               then jsToString (jgetOpt ((jlookup fs "data").getD .jundefined) "message")
               else "Unknown error"))),
            ("status_code", .jnum 409), ("data", (jlookup fs "data").getD .jundefined),
            ("raw_response", .jobj fs)]) := by
      simp [makeProxyRequest, hbody]
    have hemne : ("API Error: " ++ jsToString (.jnum 409) ++ " - " ++
        (if truthy (jgetOpt ((jlookup fs "data").getD .jundefined) "message")
         then jsToString (jgetOpt ((jlookup fs "data").getD .jundefined) "message")
         else "Unknown error")) ≠ "" :=
      str_append_ne_empty_left _ _ (str_append_ne_empty_right _ _ (by decide))
    refine ⟨[("success", .jbool true),
             ("message", .jstr "Metrics are already attached to this flag"),
             ("metricKeys", .jarr (keys.map .jstr)),
             ("data", (jlookup fs "data").getD .jundefined)], ?_, by simp [jlookup]⟩
    unfold attachMetricsToFlag
    rw [hmk]
    exact attach_on_409_error keys _ _ fs hemne hsc

/-- Claim C2 witness: a 204 envelope with a `success: false` flag and `null`
data still comes back `success: true` with no `error` field, and the concrete
409 attach envelope reporting failure yields an attach result marked
`success: true`. -/
theorem C2_proxy_success_shape_witness :
    (∃ rf : List (String × JVal),
      makeProxyRequest (.ok (.jobj [("status_code", .jnum 204), ("success", .jbool false),
          ("data", .jnull)])) = .ok (.jobj rf) ∧
      jlookup rf "success" = some (.jbool true) ∧
      (jlookup rf "error").isSome =
        hasField (jgetOpt (.jobj [("status_code", .jnum 204), ("success", .jbool false),
          ("data", .jnull)]) "data") "error") ∧
    (∃ rf : List (String × JVal),
      attachMetricsToFlag ["error-rate"] (.ok c2Envelope409) = .ok (.jobj rf) ∧
      jlookup rf "success" = some (.jbool true)) :=
  ⟨(C2_proxy_success_shape [("status_code", .jnum 204), ("success", .jbool false),
      ("data", .jnull)] 204 rfl).1 (by norm_num) (by norm_num),
    (C2_proxy_success_shape [("status_code", .jnum 409), ("success", .jbool false),
      ("data", .jnull)] 409 rfl).2 rfl rfl ["error-rate"]⟩

end GRRunner
